import Mathlib

/-
Verification of the macro-configuration pipeline of this repository.

The repository has three Python source files:
  src/classes/macro_assistant.py   (class MacroAssistant)
  src/classes/macro_generator.py   (class MacroGenerator)
  src/macro_generator.py           (top-level script, class MacroGenerator)

The definitions below are shallow embeddings of the pure parts of that
code: the schema validators (_validate_macro), the markdown code-fence
stripping performed before JSON parsing in MacroAssistant.generate_macro,
and the JSON-decode-failure handlers of generate_macro.
-/

/-- A JSON value, as produced by parsing the collaborator response text.
Numbers are modelled as integers; the validators under scrutiny never
inspect numeric values, so the number representation is irrelevant to
every theorem below. Objects are ordered key-value association lists,
matching the insertion-ordered dictionaries that json.loads builds. -/
inductive Json where
  | null : Json
  | bool (b : Bool) : Json
  | num (n : Int) : Json
  | str (s : String) : Json
  | arr (elems : List Json) : Json
  | obj (fields : List (String × Json)) : Json

/-- The distinct ValueError conditions raised by the validators in the
three source files. Each constructor records the interpolated field name
of the corresponding Python message where one exists. -/
inductive VError where
  | notDict : VError
  | fieldNotDict (field : String) : VError
  | missingMacroKey (field : String) : VError
  | missingKwargsKey (field : String) : VError
  | topMissingMacroKey : VError
  deriving DecidableEq

/-- Membership test for a key in a JSON object, embedding the Python
dictionary membership tests written as (key in config) in the source. -/
def hasKey (key : String) : List (String × Json) → Bool
  | [] => false
  | (k, _) :: rest => k == key || hasKey key rest

/-- One iteration of the validation loop of MacroAssistant._validate_macro
(src/classes/macro_assistant.py lines 117-123; identically
MacroGenerator._validate_macro in src/classes/macro_generator.py lines
138-144): the per-field checks, in source order, giving the first
ValueError raised for this field, or none when the field passes. -/
def fieldCheck (fieldName : String) (config : Json) : Option VError :=
  match config with
  | Json.obj o =>
      if hasKey ("macro") o = false then some (VError.missingMacroKey fieldName)
      else if hasKey ("kwargs") o = false then some (VError.missingKwargsKey fieldName)
      else none
  | _ => some (VError.fieldNotDict fieldName)

/-- The validation loop over macro_config.items() of
MacroAssistant._validate_macro: the first error raised, traversing the
fields in order, or none when every field passes. -/
def validateFields : List (String × Json) → Option VError
  | [] => none
  | (fieldName, config) :: rest =>
      match fieldCheck fieldName config with
      | some e => some e
      | none => validateFields rest

/-- Embedding of MacroAssistant._validate_macro
(src/classes/macro_assistant.py lines 111-125), which is line for line the
same function as MacroGenerator._validate_macro in
src/classes/macro_generator.py (lines 132-146): reject a non-dictionary
document, run the per-field loop, and on success return the same document
that was passed in. -/
def validateMacro (macroConfig : Json) : Except VError Json :=
  match macroConfig with
  | Json.obj fields =>
      match validateFields fields with
      | some e => Except.error e
      | none => Except.ok (Json.obj fields)
  | _ => Except.error VError.notDict

/-- Embedding of MacroGenerator._validate_macro of the top-level script
src/macro_generator.py (lines 101-109): it only requires the document to
be a dictionary that contains the key macro; it runs no per-field loop and
never looks for a kwargs key. -/
def rootValidateMacro (macroConfig : Json) : Except VError Json :=
  match macroConfig with
  | Json.obj fields =>
      if hasKey ("macro") fields = false then Except.error VError.topMissingMacroKey
      else Except.ok (Json.obj fields)
  | _ => Except.error VError.notDict

/-- Predicate written from the words of the specification (section 4.4
step 1): a field value passes the structural check when it is itself a
mapping containing the key macro and the key kwargs. To be compared with
the source-derived fieldCheck. -/
def fieldWellKeyed : Json → Bool
  | Json.obj o => hasKey ("macro") o && hasKey ("kwargs") o
  | _ => false

/-- Predicate written from the words of the specification (section 4.4
step 1): the whole document passes the structural checks when it is a
mapping and every field value is well keyed. To be compared with the
source-derived validateMacro. -/
def specStructurallyValid : Json → Bool
  | Json.obj fields => fields.all fun p => fieldWellKeyed p.2
  | _ => false

/-- The per-field check passes exactly when the field value is a mapping
containing both required keys. -/
theorem fieldCheck_eq_none_iff (name : String) (cfg : Json) :
    fieldCheck name cfg = none ↔ fieldWellKeyed cfg = true := by
  cases cfg with
  | null => simp [fieldCheck, fieldWellKeyed]
  | bool b => simp [fieldCheck, fieldWellKeyed]
  | num n => simp [fieldCheck, fieldWellKeyed]
  | str s => simp [fieldCheck, fieldWellKeyed]
  | arr elems => simp [fieldCheck, fieldWellKeyed]
  | obj o =>
      cases h1 : hasKey ("macro") o <;> cases h2 : hasKey ("kwargs") o <;>
        simp [fieldCheck, fieldWellKeyed, h1, h2]

/-- The validation loop raises no error exactly when every field value is
a mapping containing both required keys. -/
theorem validateFields_eq_none_iff (fs : List (String × Json)) :
    validateFields fs = none ↔ (fs.all fun p => fieldWellKeyed p.2) = true := by
  induction fs with
  | nil => simp [validateFields]
  | cons p rest ih =>
      obtain ⟨name, cfg⟩ := p
      cases h : fieldCheck name cfg with
      | some e =>
          have hw : fieldWellKeyed cfg = false := by
            cases hx : fieldWellKeyed cfg
            · rfl
            · exact absurd h (by simp [(fieldCheck_eq_none_iff name cfg).2 hx])
          simp [validateFields, h, hw]
      | none =>
          have hw : fieldWellKeyed cfg = true := (fieldCheck_eq_none_iff name cfg).1 h
          simp [validateFields, h, hw, ih]

/-- The validation loop reports the error of the first failing field and
never reads past it: any continuation of the field list after the failing
field leaves the result unchanged. -/
theorem validateFields_first_err (pre : List (String × Json)) (name : String)
    (cfg : Json) (rest : List (String × Json)) (e : VError)
    (hpre : ∀ p ∈ pre, fieldCheck p.1 p.2 = none)
    (h : fieldCheck name cfg = some e) :
    validateFields (pre ++ (name, cfg) :: rest) = some e := by
  induction pre with
  | nil => simp [validateFields, h]
  | cons q qs ih =>
      obtain ⟨qn, qc⟩ := q
      have hq : fieldCheck qn qc = none := hpre (qn, qc) (by simp)
      simp only [List.cons_append, validateFields, hq]
      exact ih fun p hp => hpre p (by simp [hp])

/-- Claim C1 (amended): for the validators in src/classes
(MacroAssistant._validate_macro and the identical
MacroGenerator._validate_macro), validation succeeds and returns the very
same document exactly when the document is a mapping in which every field
value is a mapping containing the keys macro and kwargs; in every other
case it fails with an error. The top-level script validator is excluded:
see the counterexample theorem. -/
theorem claim1_structural_checks_iff (j : Json) :
    (specStructurallyValid j = true → validateMacro j = Except.ok j)
    ∧ (specStructurallyValid j = false → ∃ e, validateMacro j = Except.error e) := by
  constructor
  · intro h
    cases j with
    | obj fields =>
        have hv : validateFields fields = none :=
          (validateFields_eq_none_iff fields).2 (by simpa [specStructurallyValid] using h)
        simp [validateMacro, hv]
    | null => simp [specStructurallyValid] at h
    | bool b => simp [specStructurallyValid] at h
    | num n => simp [specStructurallyValid] at h
    | str s => simp [specStructurallyValid] at h
    | arr elems => simp [specStructurallyValid] at h
  · intro h
    cases j with
    | obj fields =>
        cases hv : validateFields fields with
        | some e => exact ⟨e, by simp [validateMacro, hv]⟩
        | none =>
            have : (fields.all fun p => fieldWellKeyed p.2) = true :=
              (validateFields_eq_none_iff fields).1 hv
            simp [specStructurallyValid, this] at h
    | null => exact ⟨VError.notDict, by simp [validateMacro]⟩
    | bool b => exact ⟨VError.notDict, by simp [validateMacro]⟩
    | num n => exact ⟨VError.notDict, by simp [validateMacro]⟩
    | str s => exact ⟨VError.notDict, by simp [validateMacro]⟩
    | arr elems => exact ⟨VError.notDict, by simp [validateMacro]⟩

/-- Claim C1 (witness): a structurally valid document validates and is
returned unchanged, and a document with a scalar field value fails. -/
theorem claim1_structural_checks_iff_witness :
    validateMacro (Json.obj [(("f"), Json.obj [(("macro"), Json.str ("standard_macros.extract_path")), (("kwargs"), Json.obj [])])])
      = Except.ok (Json.obj [(("f"), Json.obj [(("macro"), Json.str ("standard_macros.extract_path")), (("kwargs"), Json.obj [])])])
    ∧ ∃ e, validateMacro (Json.obj [(("f"), Json.str ("scalar"))]) = Except.error e :=
  ⟨(claim1_structural_checks_iff _).1 (by decide),
   (claim1_structural_checks_iff _).2 (by decide)⟩

/-- Claim C1 (counterexample): the claim quantifies over every validator of
the repository, and its sources include the top-level script validator
src/macro_generator.py lines 101-109. The document with the single field
named macro whose value is the scalar 1 has a field value that is not a
mapping, so by the claim validation must fail; the top-level script
validator nevertheless accepts that document and returns it unchanged. -/
theorem claim1_root_validator_accepts_scalar_field :
    rootValidateMacro (Json.obj [(("macro"), Json.num 1)])
      = Except.ok (Json.obj [(("macro"), Json.num 1)])
    ∧ fieldWellKeyed (Json.num 1) = false := by
  constructor
  · rfl
  · rfl

/-- Claim C2 (counterexample): the claim says that the configuration
mapping the field result to extract_path with empty kwargs must fail
validation with a missing-kwarg error, since the required parameter expr
is absent. MacroAssistant._validate_macro never inspects the contents of
kwargs, so this very configuration validates successfully. -/
theorem claim2_missing_required_kwarg_accepted :
    validateMacro (Json.obj [(("result"), Json.obj [(("macro"), Json.str ("standard_macros.extract_path")), (("kwargs"), Json.obj [])])])
      = Except.ok (Json.obj [(("result"), Json.obj [(("macro"), Json.str ("standard_macros.extract_path")), (("kwargs"), Json.obj [])])]) := by
  rfl

/-- Claim C2 (amended): every configuration field whose kwargs mapping
omits a required parameter of its macro kind still validates successfully:
for any field name, any macro kind whatsoever, and any kwargs value at
all, in particular every kwargs mapping missing required parameters such
as the empty kwargs of extract_path, the validator checks only that the
keys macro and kwargs are present and never inspects the kwargs contents,
so no missing-kwarg error exists in the code (and no crash occurs). -/
theorem claim2_kwargs_contents_never_checked (name : String) (kind : String) (kwargsVal : Json) :
    validateMacro (Json.obj [(name, Json.obj [(("macro"), Json.str kind), (("kwargs"), kwargsVal)])])
      = Except.ok (Json.obj [(name, Json.obj [(("macro"), Json.str kind), (("kwargs"), kwargsVal)])]) := by
  rfl

/-- Claim C3 (counterexample): the claim says a configuration whose macro
value names an unregistered kind never validates successfully. The
validator performs no registry lookup at all, so a configuration naming a
nonexistent kind validates successfully. -/
theorem claim3_unknown_macro_kind_accepted :
    validateMacro (Json.obj [(("f"), Json.obj [(("macro"), Json.str ("no_such_namespace.no_such_kind")), (("kwargs"), Json.obj [])])])
      = Except.ok (Json.obj [(("f"), Json.obj [(("macro"), Json.str ("no_such_namespace.no_such_kind")), (("kwargs"), Json.obj [])])]) := by
  rfl

/-- Claim C3 (amended): the validator never resolves the macro value
against any registry; whatever value sits under the key macro, registered
kind or not, even a non-string, the field validates as long as the keys
macro and kwargs are present. -/
theorem claim3_macro_value_never_checked (name : String) (kindVal kwargsVal : Json) :
    validateMacro (Json.obj [(name, Json.obj [(("macro"), kindVal), (("kwargs"), kwargsVal)])])
      = Except.ok (Json.obj [(name, Json.obj [(("macro"), kindVal), (("kwargs"), kwargsVal)])]) := by
  rfl

/-- Claim C4 (counterexample): the claim says an invalid inner invocation
inside the inner_macro_list of a chained_macro makes the whole
configuration invalid. The validator never recurses into kwargs, so a
chained_macro whose inner_macro_list holds the empty object, an inner
invocation missing both of its required keys, still validates. -/
theorem claim4_invalid_inner_invocation_accepted :
    validateMacro (Json.obj [(("combined"), Json.obj [(("macro"), Json.str ("standard_macros.chained_macro")), (("kwargs"), Json.obj [(("inner_macro_list"), Json.arr [Json.obj []])])])])
      = Except.ok (Json.obj [(("combined"), Json.obj [(("macro"), Json.str ("standard_macros.chained_macro")), (("kwargs"), Json.obj [(("inner_macro_list"), Json.arr [Json.obj []])])])]) := by
  rfl

/-- Claim C4 (amended): validation does not recurse into inner_macro_list;
a chained_macro field is validated only by the presence of its own macro
and kwargs keys, so any inner element whatsoever, valid or invalid, leaves
the configuration valid. -/
theorem claim4_no_recursive_validation (name : String) (inner : Json) :
    validateMacro (Json.obj [(name, Json.obj [(("macro"), Json.str ("standard_macros.chained_macro")), (("kwargs"), Json.obj [(("inner_macro_list"), Json.arr [inner])])])])
      = Except.ok (Json.obj [(name, Json.obj [(("macro"), Json.str ("standard_macros.chained_macro")), (("kwargs"), Json.obj [(("inner_macro_list"), Json.arr [inner])])])]) := by
  rfl

/-- Claim C5: validation is deterministic (it is a pure function here),
mutation-free, and idempotent: whenever validation succeeds it returns the
document it was given, unchanged, and validating that result succeeds
again with the same outcome. -/
theorem claim5_validation_idempotent (c d : Json) (h : validateMacro c = Except.ok d) :
    d = c ∧ validateMacro d = Except.ok d := by
  cases c with
  | obj fields =>
      cases hv : validateFields fields with
      | some e => simp [validateMacro, hv] at h
      | none =>
          simp [validateMacro, hv] at h
          subst h
          exact ⟨rfl, by simp [validateMacro, hv]⟩
  | null => simp [validateMacro] at h
  | bool b => simp [validateMacro] at h
  | num n => simp [validateMacro] at h
  | str s => simp [validateMacro] at h
  | arr elems => simp [validateMacro] at h

/-- Claim C5 (witness): idempotence at a concrete configuration. -/
theorem claim5_validation_idempotent_witness :
    Json.obj [(("f"), Json.obj [(("macro"), Json.str ("standard_macros.extract_path")), (("kwargs"), Json.obj [(("expr"), Json.str ("a.b"))])])]
      = Json.obj [(("f"), Json.obj [(("macro"), Json.str ("standard_macros.extract_path")), (("kwargs"), Json.obj [(("expr"), Json.str ("a.b"))])])]
    ∧ validateMacro (Json.obj [(("f"), Json.obj [(("macro"), Json.str ("standard_macros.extract_path")), (("kwargs"), Json.obj [(("expr"), Json.str ("a.b"))])])])
      = Except.ok (Json.obj [(("f"), Json.obj [(("macro"), Json.str ("standard_macros.extract_path")), (("kwargs"), Json.obj [(("expr"), Json.str ("a.b"))])])]) :=
  claim5_validation_idempotent _ _ (by rfl)

/-- Claim C8: validation is fail-fast: when the fields before some failing
field all pass, the validator reports exactly that first failing field of
the traversal, and the fields after it, arbitrary as they may be, are
never examined and cannot change the reported error. -/
theorem claim8_first_error_wins (pre : List (String × Json)) (name : String)
    (cfg : Json) (rest : List (String × Json)) (e : VError)
    (hpre : ∀ p ∈ pre, fieldCheck p.1 p.2 = none)
    (h : fieldCheck name cfg = some e) :
    validateMacro (Json.obj (pre ++ (name, cfg) :: rest)) = Except.error e := by
  simp [validateMacro, validateFields_first_err pre name cfg rest e hpre h]

/-- Claim C8 (witness): with a passing first field, a second field missing
its kwargs key, and a third field that is not even a mapping, the reported
error is the one of the second field, whatever stands after it. -/
theorem claim8_first_error_wins_witness :
    validateMacro (Json.obj ([(("ok_field"), Json.obj [(("macro"), Json.str ("m")), (("kwargs"), Json.obj [])])] ++ (("bad_field"), Json.obj [(("macro"), Json.str ("m"))]) :: [(("worse_field"), Json.null)]))
      = Except.error (VError.missingKwargsKey ("bad_field")) :=
  claim8_first_error_wins _ _ _ _ _ (by decide) (by decide)

/-- Claim C9: validation looks only at the presence of the keys macro and
kwargs in each field value, never at the associated values: every document
whose field values are all mappings carrying both keys validates
successfully and is returned unchanged. -/
theorem claim9_only_key_presence_matters (fields : List (String × Json))
    (h : (fields.all fun p => fieldWellKeyed p.2) = true) :
    validateMacro (Json.obj fields) = Except.ok (Json.obj fields) := by
  simp [validateMacro, (validateFields_eq_none_iff fields).2 h]

/-- Claim C9 (witness): a field whose macro value is a number, whose
kwargs value is null rather than a mapping, and which carries an extra
key, validates successfully. -/
theorem claim9_only_key_presence_matters_witness :
    validateMacro (Json.obj [(("f"), Json.obj [(("macro"), Json.num 7), (("kwargs"), Json.null), (("extra"), Json.str ("x"))])])
      = Except.ok (Json.obj [(("f"), Json.obj [(("macro"), Json.num 7), (("kwargs"), Json.null), (("extra"), Json.str ("x"))])]) :=
  claim9_only_key_presence_matters _ (by decide)

/-- Claim C10: the empty configuration, a mapping with zero fields,
validates successfully and is returned unchanged. -/
theorem claim10_empty_config_validates :
    validateMacro (Json.obj []) = Except.ok (Json.obj []) := by
  rfl

/-- The whitespace set stripped by the Python str.strip method with no
argument, restricted to the ASCII characters it removes: space, tab,
newline, carriage return, vertical tab and form feed. -/
def isPySpace (c : Char) : Bool :=
  c == ' ' || c == '\t' || c == '\n' || c == '\r' || c == Char.ofNat 11 || c == Char.ofNat 12

/-- Embedding of the Python str.strip() call: remove leading and trailing
whitespace characters. Text is modelled as its list of characters. -/
def stripChars (l : List Char) : List Char :=
  ((l.dropWhile isPySpace).reverse.dropWhile isPySpace).reverse

/-- Decides whether the first list is a leading segment of the second,
embedding the Python str.startswith test. -/
def isPrefixList : List Char → List Char → Bool
  | [], _ => true
  | _ :: _, [] => false
  | a :: as, b :: bs => a == b && isPrefixList as bs

/-- Decides whether the first list is a trailing segment of the second,
embedding the Python str.endswith test. -/
def isSuffixList (needle hay : List Char) : Bool :=
  isPrefixList needle.reverse hay.reverse

/-- The backtick character. -/
def backquote : Char := Char.ofNat 96

/-- The three-backtick markdown fence marker. -/
def fence : List Char := [backquote, backquote, backquote]

/-- The three-backtick fence marker with the json language tag. -/
def fenceJson : List Char := [backquote, backquote, backquote, 'j', 's', 'o', 'n']

/-- Embedding of the response-cleaning block of MacroAssistant.generate_macro
(src/classes/macro_assistant.py lines 95-102): strip whitespace, drop a
leading fence-with-json-tag (7 characters), then a leading plain fence
(3 characters), then a trailing plain fence, then strip whitespace again.
The result is the text handed to the JSON parser. -/
def cleanResponse (response : List Char) : List Char :=
  let c1 := stripChars response
  let c2 := if isPrefixList fenceJson c1 = true then c1.drop 7 else c1
  let c3 := if isPrefixList fence c2 = true then c2.drop 3 else c2
  let c4 := if isSuffixList fence c3 = true then c3.take (c3.length - 3) else c3
  stripChars c4

/-- Embedding of the parse step of MacroGenerator.generate_macro in the
top-level script src/macro_generator.py (line 55): the raw collaborator
response is handed to the JSON parser unmodified, with no fence stripping
of any kind (the class in src/classes/macro_generator.py, line 65, behaves
the same way). -/
def generatorParseInput (rawResponse : List Char) : List Char := rawResponse

/-- Necessary condition from the JSON grammar enforced by the external
Python json.loads routine (standard library, outside this repository): a
parseable document must begin, after optional whitespace, with an object,
array, string, number, or one of the literals true, false, null; so its
first non-whitespace character is restricted to the set below, which does
not include the backtick. -/
def jsonLeadOk (l : List Char) : Bool :=
  match l.dropWhile isPySpace with
  | [] => false
  | c :: _ =>
      c == Char.ofNat 123 || c == '[' || c == Char.ofNat 34 || c == '-' ||
      c.isDigit || c == 't' || c == 'f' || c == 'n'

/-- Observable outcome of a JSON decode failure inside generate_macro: the
lines written to standard output, and the message of the ValueError that
is raised to the caller. -/
structure ParseFailureReport where
  printedLines : List String
  raisedMsg : String

/-- Embedding of the Python slice l[a:b] on text (with a and b already
clamped to the text, as the source does with max and min). -/
def pySlice (l : List Char) (a b : Nat) : List Char := (l.take b).drop a

/-- Embedding of the except branch of MacroAssistant.generate_macro
(src/classes/macro_assistant.py lines 106-109): print the decode position
and message, print a 100-character context window of the cleaned text
around the failure position, then raise a ValueError with a fixed
message. -/
def assistantParseFailure (cleaned : List Char) (pos : Nat) (msg : String) : ParseFailureReport :=
  { printedLines := [
      ("\nJSON Parse Error at position ") ++ toString pos ++ (": ") ++ msg,
      ("Near text: ") ++ String.mk (pySlice cleaned (pos - 50) (min cleaned.length (pos + 50)))],
    raisedMsg := ("Failed to parse assistant response as JSON. Please try again.") }

/-- Embedding of the except branch of MacroGenerator.generate_macro in
src/classes/macro_generator.py (lines 67-68): the decode error is
discarded and a ValueError with a fixed message is raised, with nothing
printed. -/
def generatorParseFailure : ParseFailureReport :=
  { printedLines := [], raisedMsg := ("Failed to generate valid macro configuration") }

/-- Decides whether the first list occurs contiguously anywhere inside the
second. -/
def containsList (needle : List Char) : List Char → Bool
  | [] => isPrefixList needle []
  | a :: rest => isPrefixList needle (a :: rest) || containsList needle rest

/-- A list is a leading segment of itself followed by anything. -/
theorem isPrefixList_self_append (n l : List Char) : isPrefixList n (n ++ l) = true := by
  induction n with
  | nil => simp [isPrefixList]
  | cons a as ih => simp [isPrefixList, ih]

/-- A list occurs inside any text that carries it between two segments. -/
theorem containsList_middle (pre needle post : List Char) :
    containsList needle (pre ++ (needle ++ post)) = true := by
  induction pre with
  | nil =>
      rw [List.nil_append]
      cases hq : needle ++ post with
      | nil =>
          have hn : needle = [] := (List.append_eq_nil.mp hq).1
          simp [containsList, hn, isPrefixList]
      | cons h t =>
          have hp : isPrefixList needle (h :: t) = true := by
            rw [← hq]; exact isPrefixList_self_append needle post
          simp [containsList, hp]
  | cons a pr ih =>
      rw [List.cons_append]
      simp only [containsList, Bool.or_eq_true]
      exact Or.inr ih

/-- The backtick is not stripped as whitespace. -/
theorem isPySpace_backquote : isPySpace backquote = false := by decide

/-- Stripping whitespace leaves untouched a text that starts with a
backtick and ends with the fence marker. -/
theorem stripChars_fence_wrapped (x : List Char) :
    stripChars ((backquote :: x) ++ fence) = (backquote :: x) ++ fence := by
  have hd : ((backquote :: x) ++ fence).dropWhile isPySpace = (backquote :: x) ++ fence := by
    rw [List.cons_append, List.dropWhile_cons]
    simp [isPySpace_backquote]
  have hrev : fence.reverse = backquote :: [backquote, backquote] := by rfl
  have hr : (((backquote :: x) ++ fence).reverse).dropWhile isPySpace
      = ((backquote :: x) ++ fence).reverse := by
    rw [List.reverse_append, hrev, List.cons_append, List.dropWhile_cons]
    simp [isPySpace_backquote]
  unfold stripChars
  rw [hd, hr, List.reverse_reverse]

/-- Stripping whitespace from a text wrapped in single newlines recovers
the inner text, provided the inner text carries no leading or trailing
whitespace of its own. -/
theorem stripChars_newline_wrapped (s : List Char)
    (h1 : s.dropWhile isPySpace = s) (h2 : s.reverse.dropWhile isPySpace = s.reverse) :
    stripChars ('\n' :: (s ++ ['\n'])) = s := by
  cases s with
  | nil => rfl
  | cons a t =>
      have ha : isPySpace a = false := by
        cases hx : isPySpace a
        · rfl
        · rw [List.dropWhile_cons, hx, if_pos rfl] at h1
          have hlen := congrArg List.length h1
          have hle : (t.dropWhile isPySpace).length ≤ t.length :=
            (List.dropWhile_suffix isPySpace).length_le
          simp only [List.length_cons] at hlen
          omega
      have hnl : isPySpace '\n' = true := by decide
      unfold stripChars
      rw [List.dropWhile_cons, hnl, if_pos rfl]
      rw [List.cons_append, List.dropWhile_cons, ha]
      simp only [Bool.false_eq_true, if_false]
      have hrs : ((a :: t) ++ ['\n']).reverse = '\n' :: (a :: t).reverse := by
        rw [List.reverse_append]; rfl
      rw [← List.cons_append, hrs, List.dropWhile_cons, hnl, if_pos rfl, h2,
        List.reverse_reverse]

/-- The trailing-fence test of the cleaning block removes exactly a
trailing fence marker. -/
theorem takeSuffix_fence (y : List Char) :
    (if isSuffixList fence (y ++ fence) = true
      then (y ++ fence).take ((y ++ fence).length - 3) else (y ++ fence)) = y := by
  have hsf : isSuffixList fence (y ++ fence) = true := by
    unfold isSuffixList
    rw [List.reverse_append]
    exact isPrefixList_self_append _ _
  rw [if_pos hsf]
  have hlen : (y ++ fence).length - 3 = y.length := by simp [fence]
  rw [hlen, List.take_left]

/-- Claim C6 (amended): the cleaning block of MacroAssistant.generate_macro
does strip a fence wrapping before parsing: for any document text with no
leading or trailing whitespace of its own, wrapping it in a fenced
markdown block, with or without the json language tag, and cleaning gives
back exactly the original text, so a well-formed JSON document wrapped in
triple backticks parses there. The MacroGenerator variants do not strip:
see the counterexample theorem. -/
theorem claim6_assistant_strips_fences (s : List Char)
    (h1 : s.dropWhile isPySpace = s) (h2 : s.reverse.dropWhile isPySpace = s.reverse) :
    cleanResponse (fenceJson ++ '\n' :: (s ++ '\n' :: fence)) = s
    ∧ cleanResponse (fence ++ '\n' :: (s ++ '\n' :: fence)) = s := by
  have hassoc : '\n' :: (s ++ '\n' :: fence) = ('\n' :: (s ++ ['\n'])) ++ fence := by
    simp
  constructor
  · have hsh : fenceJson ++ '\n' :: (s ++ '\n' :: fence)
        = (backquote :: ([backquote, backquote, 'j', 's', 'o', 'n', '\n'] ++ (s ++ ['\n']))) ++ fence := by
      simp [fenceJson, fence]
    have hstrip1 := stripChars_fence_wrapped
      ([backquote, backquote, 'j', 's', 'o', 'n', '\n'] ++ (s ++ ['\n']))
    rw [← hsh] at hstrip1
    simp only [cleanResponse]
    rw [hstrip1]
    have hpj : isPrefixList fenceJson (fenceJson ++ '\n' :: (s ++ '\n' :: fence)) = true :=
      isPrefixList_self_append _ _
    rw [if_pos hpj]
    have h7 : (7 : Nat) = fenceJson.length := by rfl
    rw [h7, List.drop_left]
    have hpf : isPrefixList fence ('\n' :: (s ++ '\n' :: fence)) = false := by
      have hbq : (backquote == '\n') = false := by decide
      simp [fence, isPrefixList, hbq]
    have hpfn : ¬ (isPrefixList fence ('\n' :: (s ++ '\n' :: fence)) = true) := by
      simp [hpf]
    rw [if_neg hpfn]
    rw [hassoc, takeSuffix_fence]
    exact stripChars_newline_wrapped s h1 h2
  · have hsh : fence ++ '\n' :: (s ++ '\n' :: fence)
        = (backquote :: ([backquote, backquote, '\n'] ++ (s ++ ['\n']))) ++ fence := by
      simp [fence]
    have hstrip2 := stripChars_fence_wrapped ([backquote, backquote, '\n'] ++ (s ++ ['\n']))
    rw [← hsh] at hstrip2
    simp only [cleanResponse]
    rw [hstrip2]
    have hpj : isPrefixList fenceJson (fence ++ '\n' :: (s ++ '\n' :: fence)) = false := by
      have hjn : (('j' : Char) == '\n') = false := by decide
      simp [fenceJson, fence, isPrefixList, hjn]
    have hpjn : ¬ (isPrefixList fenceJson (fence ++ '\n' :: (s ++ '\n' :: fence)) = true) := by
      simp [hpj]
    rw [if_neg hpjn]
    have hpf : isPrefixList fence (fence ++ '\n' :: (s ++ '\n' :: fence)) = true :=
      isPrefixList_self_append _ _
    rw [if_pos hpf]
    have hdrop : List.drop 3 (fence ++ ('\n' :: (s ++ '\n' :: fence))) = '\n' :: (s ++ '\n' :: fence) := by
      simp [fence]
    rw [hdrop]
    rw [hassoc, takeSuffix_fence]
    exact stripChars_newline_wrapped s h1 h2

/-- Claim C6 (witness): wrapping a concrete JSON object text in a fenced
block, with or without the json tag, and cleaning recovers the text. -/
theorem claim6_assistant_strips_fences_witness :
    cleanResponse (fenceJson ++ '\n' :: ((("\x7b\"name\": \"John\"\x7d").data) ++ '\n' :: fence))
      = ("\x7b\"name\": \"John\"\x7d").data
    ∧ cleanResponse (fence ++ '\n' :: ((("\x7b\"name\": \"John\"\x7d").data) ++ '\n' :: fence))
      = ("\x7b\"name\": \"John\"\x7d").data :=
  claim6_assistant_strips_fences (("\x7b\"name\": \"John\"\x7d").data) (by decide) (by decide)

/-- Claim C6 (counterexample): the claim quantifies over generate_macro,
and its sources include MacroGenerator.generate_macro of
src/macro_generator.py, which hands the collaborator text to the JSON
parser unmodified. For the well-formed document consisting of the empty
object wrapped in a fenced json block, the text it hands the parser still
carries the fences and starts with a backtick, which the JSON grammar of
the external parser rejects, while cleaning would have recovered exactly
the empty-object document. -/
theorem claim6_generator_keeps_fences :
    generatorParseInput (("```json\n\x7b\x7d\n```").data) = ("```json\n\x7b\x7d\n```").data
    ∧ jsonLeadOk (generatorParseInput (("```json\n\x7b\x7d\n```").data)) = false
    ∧ cleanResponse (("```json\n\x7b\x7d\n```").data) = ("\x7b\x7d").data
    ∧ jsonLeadOk (("\x7b\x7d").data) = true := by
  exact ⟨rfl, by decide, by decide, by decide⟩

/-- Claim C7 (amended): on a JSON decode failure,
MacroAssistant.generate_macro prints a first diagnostic line that embeds
the decimal byte offset of the failure, prints a second line carrying a
context window that is a contiguous piece of the cleaned text of at most
100 characters, and then raises an error whose message is fixed; the
offset and context live in the printed diagnostics, not inside the raised
error itself. -/
theorem claim7_diagnostics_printed_not_raised (cleaned : List Char) (pos : Nat) (msg : String) :
    containsList ((toString pos).data)
        (((assistantParseFailure cleaned pos msg).printedLines.headD ("")).data) = true
    ∧ (∃ w : List Char,
        (assistantParseFailure cleaned pos msg).printedLines.getD 1 ("")
          = ("Near text: ") ++ String.mk w
        ∧ w <:+: cleaned ∧ w.length ≤ 100)
    ∧ (assistantParseFailure cleaned pos msg).raisedMsg
        = ("Failed to parse assistant response as JSON. Please try again.") := by
  refine ⟨?_, ⟨pySlice cleaned (pos - 50) (min cleaned.length (pos + 50)), rfl, ?_, ?_⟩, rfl⟩
  · show containsList ((toString pos).data)
      (((("\nJSON Parse Error at position ") ++ toString pos ++ (": ") ++ msg)).data) = true
    simp only [String.data_append, List.append_assoc]
    exact containsList_middle _ _ _
  · simp only [pySlice]
    exact ((cleaned.take _).drop_suffix _).isInfix.trans (cleaned.take_prefix _).isInfix
  · simp only [pySlice, List.length_drop, List.length_take]
    omega

/-- Claim C7 (counterexample): the claim says the raised error includes
the byte offset and a context window. At a concrete decode failure at
offset 3 inside the cleaned text bogus text, the raised message of
MacroAssistant.generate_macro is a fixed sentence that contains no digit
at all, hence no byte offset, and does not contain the cleaned text
either; and the MacroGenerator variant raises its own fixed digit-free
message while printing nothing. -/
theorem claim7_raised_error_lacks_diagnostics :
    (assistantParseFailure (("bogus text").data) 3 ("Expecting value")).raisedMsg
      = ("Failed to parse assistant response as JSON. Please try again.")
    ∧ ((assistantParseFailure (("bogus text").data) 3 ("Expecting value")).raisedMsg.data.all
        fun c => !(c.isDigit)) = true
    ∧ containsList (("bogus text").data)
        ((assistantParseFailure (("bogus text").data) 3 ("Expecting value")).raisedMsg.data) = false
    ∧ generatorParseFailure.printedLines = []
    ∧ (generatorParseFailure.raisedMsg.data.all fun c => !(c.isDigit)) = true := by
  exact ⟨rfl, by decide, by decide, rfl, by decide⟩
